import Mathlib

/-!
Verification development for the two PyKale tutorial notebooks:
`examples/bindingdb_deepdta/tutorial.ipynb` (DeepDTA, drug-target affinity
regression) and `examples/digits_dann_lightn/tutorial.ipynb` (DANN, digit
domain adaptation).  The notebooks are straight-line sequences of code cells;
we embed the cell sequences, the configuration-object life cycle, the
torch.randperm-based subsampling, the device selection, and the trainer
construction, and prove the specified properties about them.
-/

set_option autoImplicit false

namespace PyKale

/-! ## Notebook cell sequences

Each code cell of the two notebooks is a constructor, listed in source order.
Markdown cells do not execute and are omitted.
-/

/-- The code cells of the DeepDTA notebook `bindingdb_deepdta/tutorial.ipynb`,
in source order. -/
inductive DCell where
  /-- Cell d2c44298: Colab detection (`if 'google.colab' in str(get_ipython())`). -/
  | colabCheck
  /-- Cell 83b926d3: module imports. -/
  | importsCell
  /-- Cell c81a024e: `get_cfg_defaults`, `merge_from_file`, `freeze`, `print`,
  `set_seed(cfg.SOLVER.SEED)`. -/
  | configSetup
  /-- Cell 716a4b15: `device = "cuda" if torch.cuda.is_available() else "cpu"`,
  `gpus = 1 if device == "cuda" else 0`. -/
  | gpuCheck
  /-- Cell ab06bd86: three `BindingDBDataset` constructions, `torch.randperm`
  prefix sampling, and `Subset` construction. -/
  | datasetSubset
  /-- Cell 1b68a11c: the bare expression `cfg.DATASET.PATH` (display only). -/
  | cfgPathDisplay
  /-- Cell 557f7ea3: the three `DataLoader` constructions. -/
  | dataloaderSetup
  /-- Cell 4d3d9332: `model = get_model(cfg)`. -/
  | modelSetup
  /-- Cell c6d1aea7: `TensorBoardLogger("tb_logs", name=cfg.DATASET.NAME)`. -/
  | loggerSetup
  /-- Cell 5b484f26: `ModelCheckpoint` and `pl.Trainer(...)`. -/
  | trainerSetup
  /-- Cell b8c5c3c1: `trainer.fit(model, ...)`. -/
  | fitCall
  /-- Cell 3bda8d74: `trainer.test(test_dataloaders=test_loader)`. -/
  | testCall
deriving DecidableEq, Repr

/-- The code cells of the DANN notebook `digits_dann_lightn/tutorial.ipynb`,
in source order. -/
inductive NCell where
  /-- Cell aed40d82: Colab detection. -/
  | colabCheck
  /-- Cell fa4e8582: module imports. -/
  | importsCell
  /-- Cell f8add5b8: `get_cfg_defaults`, `merge_from_file`, `freeze`, `print`. -/
  | configSetup
  /-- Cell 66e98e83: `device = "cuda" if torch.cuda.is_available() else "cpu"`,
  `gpus = 1 if device == "cuda" else None`. -/
  | gpuCheck
  /-- Cell e1177e66: `DigitDataset.get_source_target` and
  `MultiDomainDatasets(...)` with `class_subset = [1, 3, 8]`. -/
  | datasetSetup
  /-- Cell daec6200: `seed = cfg.SOLVER.SEED; set_seed(seed)`. -/
  | setSeedCell
  /-- Cell 4d8e3976: `model, train_params = get_model(cfg, dataset, num_channels)`. -/
  | modelSetup
  /-- Cell 2e4c07f3: `TensorBoardLogger(cfg.OUTPUT.TB_DIR, ...)`. -/
  | loggerSetup
  /-- Cell c4d36430: `ModelCheckpoint(...)`. -/
  | checkpointSetup
  /-- Cell cef2ec46: `TQDMProgressBar(cfg.OUTPUT.PB_FRESH)`. -/
  | progressBarSetup
  /-- Cell 6dcfb7a3: `pl.Trainer(...)`. -/
  | trainerSetup
  /-- Cell f1e7a5d3: `trainer.fit(model)`. -/
  | fitCall
  /-- Cell 5f59fcee: `trainer.test()`. -/
  | testCall
deriving DecidableEq, Repr

/-- The DeepDTA notebook's code cells in the order a run-all execution runs them. -/
def deepdtaCells : List DCell :=
  [.colabCheck, .importsCell, .configSetup, .gpuCheck, .datasetSubset,
   .cfgPathDisplay, .dataloaderSetup, .modelSetup, .loggerSetup,
   .trainerSetup, .fitCall, .testCall]

/-- The DANN notebook's code cells in the order a run-all execution runs them. -/
def dannCells : List NCell :=
  [.colabCheck, .importsCell, .configSetup, .gpuCheck, .datasetSetup,
   .setSeedCell, .modelSetup, .loggerSetup, .checkpointSetup,
   .progressBarSetup, .trainerSetup, .fitCall, .testCall]

/-- The pipeline stages named by the specification: environment check (Colab
detection), configuration loading, dataset construction and split/subsetting,
model instantiation, logger and trainer setup, `fit`, `test`. -/
inductive Stage where
  | envCheck
  | configLoad
  | datasetStage
  | modelBuild
  | loggerTrainerSetup
  | fitStage
  | testStage
deriving DecidableEq, Repr

/-- Stage classification of the DeepDTA cells.  Imports, the GPU-availability
probe and the bare `cfg.DATASET.PATH` display are auxiliary cells belonging to
none of the specified stages; the `DataLoader` cell continues the dataset
stage. -/
def stageOfD : DCell → Option Stage
  | .colabCheck => some .envCheck
  | .importsCell => none
  | .configSetup => some .configLoad
  | .gpuCheck => none
  | .datasetSubset => some .datasetStage
  | .cfgPathDisplay => none
  | .dataloaderSetup => some .datasetStage
  | .modelSetup => some .modelBuild
  | .loggerSetup => some .loggerTrainerSetup
  | .trainerSetup => some .loggerTrainerSetup
  | .fitCall => some .fitStage
  | .testCall => some .testStage

/-- Stage classification of the DANN cells.  Imports, the GPU-availability
probe, and the standalone `set_seed` cell are auxiliary; checkpoint and
progress-bar construction continue the logger/trainer-setup stage. -/
def stageOfN : NCell → Option Stage
  | .colabCheck => some .envCheck
  | .importsCell => none
  | .configSetup => some .configLoad
  | .gpuCheck => none
  | .datasetSetup => some .datasetStage
  | .setSeedCell => none
  | .modelSetup => some .modelBuild
  | .loggerSetup => some .loggerTrainerSetup
  | .checkpointSetup => some .loggerTrainerSetup
  | .progressBarSetup => some .loggerTrainerSetup
  | .trainerSetup => some .loggerTrainerSetup
  | .fitCall => some .fitStage
  | .testCall => some .testStage

/-- Collapse consecutive equal stages: a stage spanning several consecutive
cells counts once. -/
def squashConsec : List Stage → List Stage
  | [] => []
  | [a] => [a]
  | a :: b :: rest =>
    if a = b then squashConsec (b :: rest) else a :: squashConsec (b :: rest)

/-- The stage sequence the specification states for both notebooks. -/
def specStageOrder : List Stage :=
  [.envCheck, .configLoad, .datasetStage, .modelBuild, .loggerTrainerSetup,
   .fitStage, .testStage]

/-- C1: For every run of either notebook, the stages execute in exactly the
specified order — environment check (Colab detection), configuration loading,
dataset construction and split/subsetting, model instantiation, logger and
trainer setup, a single `trainer.fit` call, a single `trainer.test` call —
with no stage skipped, repeated or reordered, and exactly one `fit` cell and
one `test` cell in each notebook. -/
theorem notebook_stage_order :
    squashConsec (deepdtaCells.filterMap stageOfD) = specStageOrder ∧
    squashConsec (dannCells.filterMap stageOfN) = specStageOrder ∧
    deepdtaCells.count DCell.fitCall = 1 ∧
    deepdtaCells.count DCell.testCall = 1 ∧
    dannCells.count NCell.fitCall = 1 ∧
    dannCells.count NCell.testCall = 1 := by
  decide

/-! ## Configuration object (yacs `CfgNode`) life cycle

Both notebooks build the config by `cfg = get_cfg_defaults()`,
`cfg.merge_from_file(cfg_path)`, `cfg.freeze()`, and afterwards only read
keys.  We model the config as an association list of `(SECTION, KEY)` pairs
to scalar values, with a frozen flag; merging overrides each default by the
YAML value when present (yacs only accepts YAML keys already in the
defaults), and any mutation of a frozen config is an error.
-/

/-- A hierarchical config key, as `(SECTION, KEY)`. -/
abbrev CfgKey := String × String

/-- A yacs-style config node: current values plus the frozen flag. -/
structure CfgNode where
  vals : List (CfgKey × String)
  frozen : Bool
deriving DecidableEq, Repr

/-- `merge_from_file`: each default value is overridden by the YAML value for
the same key when the YAML file provides one. -/
def mergeVals (defaults yaml : List (CfgKey × String)) : List (CfgKey × String) :=
  defaults.map (fun kv => (kv.1, ((yaml.lookup kv.1).getD kv.2)))

/-- The configuration operations a notebook performs on `cfg`. -/
inductive CfgOp where
  | mergeFromFile (yaml : List (CfgKey × String))
  | freeze
  | read (k : CfgKey)

/-- Whether an operation is a pure read. -/
def CfgOp.isRead : CfgOp → Bool
  | .read _ => true
  | _ => false

/-- Whether an operation is the freeze call. -/
def CfgOp.isFreeze : CfgOp → Bool
  | .freeze => true
  | _ => false

/-- One configuration operation: mutating a frozen config is an error
(yacs raises on any mutation after `freeze()`); a read returns the current
value of the key and leaves the config unchanged. -/
def stepCfg (c : CfgNode) : CfgOp → Except String (CfgNode × Option (CfgKey × Option String))
  | .mergeFromFile yaml =>
    if c.frozen then .error "mutation of frozen config"
    else .ok ({ vals := mergeVals c.vals yaml, frozen := false }, none)
  | .freeze => .ok ({ c with frozen := true }, none)
  | .read k => .ok (c, some (k, c.vals.lookup k))

/-- Run a list of configuration operations, collecting every read result. -/
def runCfgOps (c : CfgNode) : List CfgOp → Except String (CfgNode × List (CfgKey × Option String))
  | [] => .ok (c, [])
  | op :: ops =>
    match stepCfg c op with
    | .error e => .error e
    | .ok (c2, r) =>
      match runCfgOps c2 ops with
      | .error e => .error e
      | .ok (c3, rs) => .ok (c3, (r.toList) ++ rs)

/-- After the first `freeze` in the trace, every remaining operation is a
read. -/
def readsOnlyAfterFreeze (ops : List CfgOp) : Bool :=
  ((ops.dropWhile (fun op => !op.isFreeze)).drop 1).all CfgOp.isRead

/-- The `cfg.SECTION.KEY` reads of the DeepDTA notebook, in execution order:
`SOLVER.SEED` (config cell), `DATASET.NAME`/`DATASET.PATH` for each of the
three `BindingDBDataset` calls, the bare `cfg.DATASET.PATH` display cell,
the three `DataLoader` batch sizes, `DATASET.NAME` for the logger, and
`SOLVER.MIN_EPOCHS`/`SOLVER.MAX_EPOCHS` for the trainer.  (`get_model(cfg)`
passes the whole object and performs no `cfg.SECTION.KEY` access in the
notebook's own text.) -/
def deepdtaReadKeys : List CfgKey :=
  [("SOLVER", "SEED"),
   ("DATASET", "NAME"), ("DATASET", "PATH"),
   ("DATASET", "NAME"), ("DATASET", "PATH"),
   ("DATASET", "NAME"), ("DATASET", "PATH"),
   ("DATASET", "PATH"),
   ("SOLVER", "TRAIN_BATCH_SIZE"), ("SOLVER", "TEST_BATCH_SIZE"),
   ("SOLVER", "TEST_BATCH_SIZE"),
   ("DATASET", "NAME"),
   ("SOLVER", "MIN_EPOCHS"), ("SOLVER", "MAX_EPOCHS")]

/-- The `cfg.SECTION.KEY` reads of the DANN notebook, in execution order:
the dataset cell (`DATASET.SOURCE`, `DATASET.TARGET`, `DATASET.ROOT`,
`DATASET.WEIGHT_TYPE`, `DATASET.SIZE_TYPE`, `DATASET.VALID_SPLIT_RATIO`),
the seed cell (`SOLVER.SEED`), the logger (`OUTPUT.TB_DIR`), the progress
bar (`OUTPUT.PB_FRESH`), and the trainer
(`SOLVER.MIN_EPOCHS`/`SOLVER.MAX_EPOCHS`). -/
def dannReadKeys : List CfgKey :=
  [("DATASET", "SOURCE"), ("DATASET", "TARGET"), ("DATASET", "ROOT"),
   ("DATASET", "WEIGHT_TYPE"), ("DATASET", "SIZE_TYPE"),
   ("DATASET", "VALID_SPLIT_RATIO"),
   ("SOLVER", "SEED"),
   ("OUTPUT", "TB_DIR"),
   ("OUTPUT", "PB_FRESH"),
   ("SOLVER", "MIN_EPOCHS"), ("SOLVER", "MAX_EPOCHS")]

/-- The DeepDTA notebook's configuration-operation trace: merge the tutorial
YAML over the defaults, freeze, then only reads. -/
def deepdtaCfgOps (yaml : List (CfgKey × String)) : List CfgOp :=
  CfgOp.mergeFromFile yaml :: CfgOp.freeze :: deepdtaReadKeys.map CfgOp.read

/-- The DANN notebook's configuration-operation trace. -/
def dannCfgOps (yaml : List (CfgKey × String)) : List CfgOp :=
  CfgOp.mergeFromFile yaml :: CfgOp.freeze :: dannReadKeys.map CfgOp.read

/-- C2: In both notebooks the config is built by merging the tutorial YAML
over the defaults and then frozen; every operation after the freeze is a
read, the whole trace runs without a frozen-mutation error, the config ends
frozen with exactly the merge-time values, and every read returns the value
fixed at merge time. -/
theorem cfg_frozen_after_merge (defaults yaml : List (CfgKey × String)) :
    readsOnlyAfterFreeze (deepdtaCfgOps yaml) = true ∧
    readsOnlyAfterFreeze (dannCfgOps yaml) = true ∧
    runCfgOps (CfgNode.mk defaults false) (deepdtaCfgOps yaml) =
      .ok (CfgNode.mk (mergeVals defaults yaml) true,
        deepdtaReadKeys.map (fun k => (k, (mergeVals defaults yaml).lookup k))) ∧
    runCfgOps (CfgNode.mk defaults false) (dannCfgOps yaml) =
      .ok (CfgNode.mk (mergeVals defaults yaml) true,
        dannReadKeys.map (fun k => (k, (mergeVals defaults yaml).lookup k))) := by
  refine ⟨rfl, rfl, rfl, rfl⟩

/-! ## Recognized configuration keys (spec section 6) -/

/-- Modelled from the spec: the recognized key categories of the YAML
interface — dataset path/name, batch sizes, seed, min/max epoch counts, and
output directories.  `DATASET.NAME/SOURCE/TARGET` are dataset names,
`DATASET.PATH/ROOT` dataset paths, and `OUTPUT.TB_DIR` an output
directory. -/
def recognizedSpecKey (k : CfgKey) : Bool :=
  k ∈ [(("DATASET", "NAME") : CfgKey), ("DATASET", "SOURCE"), ("DATASET", "TARGET"),
       ("DATASET", "PATH"), ("DATASET", "ROOT"),
       ("SOLVER", "TRAIN_BATCH_SIZE"), ("SOLVER", "TEST_BATCH_SIZE"),
       ("SOLVER", "SEED"),
       ("SOLVER", "MIN_EPOCHS"), ("SOLVER", "MAX_EPOCHS"),
       ("OUTPUT", "TB_DIR"), ("OUTPUT", "OUT_DIR")]

/-- C4 counterexample: the DANN notebook reads `cfg.OUTPUT.PB_FRESH` (the
progress-bar refresh rate) — and also `DATASET.WEIGHT_TYPE`,
`DATASET.SIZE_TYPE`, `DATASET.VALID_SPLIT_RATIO` — none of which is a
dataset path/name, batch size, seed, epoch bound, or output directory. -/
theorem dann_reads_unrecognized_key :
    ("OUTPUT", "PB_FRESH") ∈ dannReadKeys ∧
    recognizedSpecKey ("OUTPUT", "PB_FRESH") = false ∧
    ("DATASET", "WEIGHT_TYPE") ∈ dannReadKeys ∧
    recognizedSpecKey ("DATASET", "WEIGHT_TYPE") = false := by
  decide

/-- C4 (amended): every configuration key read by the DeepDTA notebook falls
within the recognized categories; every key read by the DANN notebook does
too, except for the four additional keys `DATASET.WEIGHT_TYPE`,
`DATASET.SIZE_TYPE`, `DATASET.VALID_SPLIT_RATIO` and `OUTPUT.PB_FRESH`. -/
theorem cfg_reads_recognized_amended :
    deepdtaReadKeys.all recognizedSpecKey = true ∧
    dannReadKeys.all (fun k => recognizedSpecKey k ||
      k ∈ [(("DATASET", "WEIGHT_TYPE") : CfgKey), ("DATASET", "SIZE_TYPE"),
           ("DATASET", "VALID_SPLIT_RATIO"), ("OUTPUT", "PB_FRESH")]) = true := by
  decide

/-! ## Exception propagation (spec section 7)

Neither notebook contains a `try`/`except` (or any other handler): every cell
is straight-line code.  We model a run as the cell list zipped with each
cell's outcome — `none` for success, `some e` for an exception `e` raised by
the external framework (missing GPU, bad config path, out-of-memory, ...) —
and show any such exception surfaces unhandled.
-/

/-- Whether a DeepDTA cell contains an exception handler.  No cell of the
notebook contains `try`/`except`. -/
def dcellHasHandler : DCell → Bool := fun _ => false

/-- Whether a DANN cell contains an exception handler.  No cell of the
notebook contains `try`/`except`. -/
def ncellHasHandler : NCell → Bool := fun _ => false

/-- The result of running a notebook top to bottom. -/
inductive RunResult where
  /-- All executed cells succeeded. -/
  | completed
  /-- Some cell raised exception `e` and no handler caught it; execution
  halts there. -/
  | uncaught (e : String)
deriving DecidableEq, Repr

/-- Run the cells against their outcomes: a raising cell whose text has a
handler would swallow the exception and continue; one without a handler
halts the run with the exception uncaught. -/
def runNotebook {α : Type} (handler : α → Bool) :
    List α → List (Option String) → RunResult
  | [], _ => .completed
  | _, [] => .completed
  | c :: cs, o :: os =>
    match o with
    | none => runNotebook handler cs os
    | some e => if handler c then runNotebook handler cs os else .uncaught e

/-- The first exception raised among the outcomes of the executed cells. -/
def firstRaise (os : List (Option String)) : Option String :=
  (os.filterMap id).head?

/-- If no cell of the notebook has a handler, the run completes exactly when
no executed cell raises, and otherwise surfaces the first raised exception
uncaught. -/
theorem runNotebook_no_handler {α : Type} (handler : α → Bool)
    (cells : List α) (h : ∀ c ∈ cells, handler c = false) :
    ∀ os : List (Option String),
      runNotebook handler cells os =
        match firstRaise (os.take cells.length) with
        | none => RunResult.completed
        | some e => RunResult.uncaught e := by
  induction cells with
  | nil => intro os; cases os <;> rfl
  | cons c cs ih =>
    intro os
    cases os with
    | nil => rfl
    | cons o os2 =>
      have hc : handler c = false := h c (List.mem_cons_self c cs)
      have hcs : ∀ x ∈ cs, handler x = false :=
        fun x hx => h x (List.mem_cons_of_mem c hx)
      cases o with
      | none =>
        simp only [runNotebook, firstRaise, List.length_cons, List.take_succ_cons,
          List.filterMap_cons_none]
        exact ih hcs os2
      | some e =>
        simp [runNotebook, hc, firstRaise]

/-- C3: neither notebook contains any exception handling of its own, and
for every assignment of outcomes to cells (covering a missing GPU, a bad
configuration file path, out-of-memory, or any other framework failure),
the first exception raised in a run surfaces directly as an uncaught
exception halting the notebook; recovery or fallback never occurs. -/
theorem notebook_failures_unhandled :
    deepdtaCells.all (fun c => dcellHasHandler c = false) = true ∧
    dannCells.all (fun c => ncellHasHandler c = false) = true ∧
    (∀ os : List (Option String),
      runNotebook dcellHasHandler deepdtaCells os =
        match firstRaise (os.take deepdtaCells.length) with
        | none => RunResult.completed
        | some e => RunResult.uncaught e) ∧
    (∀ os : List (Option String),
      runNotebook ncellHasHandler dannCells os =
        match firstRaise (os.take dannCells.length) with
        | none => RunResult.completed
        | some e => RunResult.uncaught e) := by
  refine ⟨by decide, by decide, ?_, ?_⟩
  · exact runNotebook_no_handler dcellHasHandler deepdtaCells (fun c _ => rfl)
  · exact runNotebook_no_handler ncellHasHandler dannCells (fun c _ => rfl)

/-! ## Device selection -/

/-- `device = "cuda" if torch.cuda.is_available() else "cpu"` (both
notebooks, identical cell). -/
def deviceOf (cudaIsAvailable : Bool) : String :=
  if cudaIsAvailable then "cuda" else "cpu"

/-- DeepDTA: `gpus = 1 if device == "cuda" else 0`. -/
def deepdtaGpus (cudaIsAvailable : Bool) : Nat :=
  if deviceOf cudaIsAvailable = "cuda" then 1 else 0

/-- DANN: `gpus = 1 if device == "cuda" else None`. -/
def dannGpus (cudaIsAvailable : Bool) : Option Nat :=
  if deviceOf cudaIsAvailable = "cuda" then some 1 else none

/-- C8: device selection is a total deterministic function of CUDA
availability — `"cuda"` iff CUDA is available, `"cpu"` otherwise — and the
GPU count handed to the trainer is 1 when CUDA is available and otherwise
0 (DeepDTA) or `None` (DANN); in particular with no GPU the device is
`"cpu"` and the selection still produces a value rather than failing. -/
theorem device_selection_total (b : Bool) :
    (deviceOf b = "cuda" ↔ b = true) ∧
    (deviceOf b = "cpu" ↔ b = false) ∧
    deepdtaGpus b = (if b then 1 else 0) ∧
    dannGpus b = (if b then some 1 else none) := by
  cases b <;> refine ⟨?_, ?_, ?_, ?_⟩ <;> simp [deviceOf, deepdtaGpus, dannGpus]

/-! ## Trainer construction -/

/-- The arguments both notebooks pass to `pl.Trainer`. -/
structure PLTrainerArgs where
  minEpochs : Nat
  maxEpochs : Nat
  gpus : Option Nat
deriving DecidableEq, Repr

/-- DeepDTA: `pl.Trainer(min_epochs=cfg.SOLVER.MIN_EPOCHS,
max_epochs=cfg.SOLVER.MAX_EPOCHS, gpus=gpus, ...)` with `gpus : int`. -/
def deepdtaTrainer (cfgSolverMinEpochs cfgSolverMaxEpochs gpus : Nat) : PLTrainerArgs :=
  { minEpochs := cfgSolverMinEpochs, maxEpochs := cfgSolverMaxEpochs,
    gpus := some gpus }

/-- DANN: `pl.Trainer(min_epochs=cfg.SOLVER.MIN_EPOCHS,
max_epochs=cfg.SOLVER.MAX_EPOCHS, ..., gpus=gpus)` with `gpus : Optional[int]`. -/
def dannTrainer (cfgSolverMinEpochs cfgSolverMaxEpochs : Nat) (gpus : Option Nat) :
    PLTrainerArgs :=
  { minEpochs := cfgSolverMinEpochs, maxEpochs := cfgSolverMaxEpochs, gpus := gpus }

/-- Modelled from the spec: the external Lightning trainer (its code is not
part of this repository) runs the training loop invoked by `fit` for a
number of epochs `n` bounded below by `min_epochs` and above by
`max_epochs`. -/
def FitEpochCount (t : PLTrainerArgs) (n : Nat) : Prop :=
  t.minEpochs ≤ n ∧ n ≤ t.maxEpochs

/-- C7: both trainers are constructed with `min_epochs = cfg.SOLVER.MIN_EPOCHS`
and `max_epochs = cfg.SOLVER.MAX_EPOCHS`, so any epoch count the fit loop can
run lies between the two configured bounds. -/
theorem trainer_epoch_bounds (minE maxE g n m : Nat) (go : Option Nat)
    (hd : FitEpochCount (deepdtaTrainer minE maxE g) n)
    (hn : FitEpochCount (dannTrainer minE maxE go) m) :
    (deepdtaTrainer minE maxE g).minEpochs = minE ∧
    (deepdtaTrainer minE maxE g).maxEpochs = maxE ∧
    (dannTrainer minE maxE go).minEpochs = minE ∧
    (dannTrainer minE maxE go).maxEpochs = maxE ∧
    (minE ≤ n ∧ n ≤ maxE) ∧ (minE ≤ m ∧ m ≤ maxE) :=
  ⟨rfl, rfl, rfl, rfl, hd, hn⟩

/-- Witness for C7 at `min_epochs = 1`, `max_epochs = 3`, 2 epochs run. -/
theorem trainer_epoch_bounds_witness :
    (deepdtaTrainer 1 3 0).minEpochs = 1 ∧
    (deepdtaTrainer 1 3 0).maxEpochs = 3 ∧
    (dannTrainer 1 3 none).minEpochs = 1 ∧
    (dannTrainer 1 3 none).maxEpochs = 3 ∧
    ((1 ≤ 2 ∧ 2 ≤ 3) ∧ (1 ≤ 3 ∧ 3 ≤ 3)) :=
  trainer_epoch_bounds 1 3 0 2 3 none ⟨by decide, by decide⟩ ⟨by decide, by decide⟩

/-! ## DeepDTA subset sampling

Cell ab06bd86 of the DeepDTA notebook draws
`torch.randperm(split_size)[:subset_size].tolist()` for each of the three
splits and wraps each split in `torch.utils.data.Subset`.  `torch.randperm`
is modelled as a function from the generator state and the length to a
permutation of `0..n-1` together with the successor state; the three calls
thread the state left to right, as Python evaluates the tuple on line 168.
-/

/-- `train_subset_size = 8000` (notebook line 115). -/
def train_subset_size : Nat := 8000

/-- `valid_subset_size = 1000` (notebook line 115). -/
def valid_subset_size : Nat := 1000

/-- `test_subset_size = 1000` (notebook line 115). -/
def test_subset_size : Nat := 1000

/-- A model of `torch.randperm` is adequate when, from every generator
state, `randperm s n` yields a permutation of `0..n-1`. -/
def IsRandPerm (randperm : Nat → Nat → List Nat × Nat) : Prop :=
  ∀ s n, ((randperm s n).1).Perm (List.range n)

/-- The three `torch.randperm(size)[:subset].tolist()` draws of cell
ab06bd86, threading the generator state through the train, valid and test
calls in evaluation order; returns the three index lists and the final
generator state. -/
def sampleSplitIndices (randperm : Nat → Nat → List Nat × Nat)
    (s trainSize validSize testSize : Nat) :
    (List Nat × List Nat × List Nat) × Nat :=
  let r1 := randperm s trainSize
  let r2 := randperm r1.2 validSize
  let r3 := randperm r2.2 testSize
  ((r1.1.take train_subset_size, r2.1.take valid_subset_size,
    r3.1.take test_subset_size), r3.2)

/-- A torch map-style dataset: a length and an item accessor. -/
structure TorchDataset (α : Type) where
  length : Nat
  item : Nat → α

/-- `torch.utils.data.Subset.__getitem__`: `subset[i] = dataset[indices[i]]`. -/
def subsetItem {α : Type} (d : TorchDataset α) (indices : List Nat) (i : Nat) : α :=
  d.item (indices.getD i 0)

/-- The sequence of elements exposed by `Subset(dataset, indices)`: its
length is `len(indices)` and its `i`-th element is `dataset[indices[i]]`. -/
def subsetToList {α : Type} (d : TorchDataset α) (indices : List Nat) : List α :=
  (List.range indices.length).map (subsetItem d indices)

/-- `Subset(dataset, indices)` is exactly the restriction of the dataset to
`indices`, in order. -/
theorem subsetToList_eq {α : Type} (d : TorchDataset α) (idx : List Nat) :
    subsetToList d idx = idx.map d.item := by
  apply List.ext_getElem
  · simp [subsetToList]
  · intro i h1 h2
    have hi : i < idx.length := by simpa [subsetToList] using h1
    simp only [subsetToList, List.getElem_map, List.getElem_range, subsetItem,
      List.getD_eq_getElem?_getD, List.getElem?_eq_getElem hi, Option.getD_some]

/-- C5: for an adequate `randperm` model, each of the three sampled index
lists is the prefix (of the requested subset length) of a permutation of
`0..split_size-1`, and each `Subset` dataset passed onward is exactly the
restriction of the original split to those indices in that order. -/
theorem deepdta_subsampling {α : Type} (randperm : Nat → Nat → List Nat × Nat)
    (h : IsRandPerm randperm) (s trainSize validSize testSize : Nat)
    (dTrain dValid dTest : TorchDataset α) :
    (∃ p, List.Perm p (List.range trainSize) ∧
      (sampleSplitIndices randperm s trainSize validSize testSize).1.1 =
        p.take train_subset_size) ∧
    (∃ p, List.Perm p (List.range validSize) ∧
      (sampleSplitIndices randperm s trainSize validSize testSize).1.2.1 =
        p.take valid_subset_size) ∧
    (∃ p, List.Perm p (List.range testSize) ∧
      (sampleSplitIndices randperm s trainSize validSize testSize).1.2.2 =
        p.take test_subset_size) ∧
    subsetToList dTrain (sampleSplitIndices randperm s trainSize validSize testSize).1.1 =
      ((sampleSplitIndices randperm s trainSize validSize testSize).1.1).map dTrain.item ∧
    subsetToList dValid (sampleSplitIndices randperm s trainSize validSize testSize).1.2.1 =
      ((sampleSplitIndices randperm s trainSize validSize testSize).1.2.1).map dValid.item ∧
    subsetToList dTest (sampleSplitIndices randperm s trainSize validSize testSize).1.2.2 =
      ((sampleSplitIndices randperm s trainSize validSize testSize).1.2.2).map dTest.item := by
  refine ⟨⟨(randperm s trainSize).1, h s trainSize, rfl⟩,
    ⟨(randperm (randperm s trainSize).2 validSize).1, h _ validSize, rfl⟩,
    ⟨(randperm (randperm (randperm s trainSize).2 validSize).2 testSize).1,
      h _ testSize, rfl⟩,
    subsetToList_eq dTrain _, subsetToList_eq dValid _, subsetToList_eq dTest _⟩

/-- A concrete adequate `randperm` model: the identity permutation, with the
state advanced by `n`. -/
def rpModel : Nat → Nat → List Nat × Nat := fun s n => (List.range n, s + n)

/-- `rpModel` is an adequate `randperm` model. -/
theorem rpModel_isRandPerm : IsRandPerm rpModel :=
  fun _ n => List.Perm.refl (List.range n)

/-- A concrete dataset of 12000 items for witnessing. -/
def natDataset : TorchDataset Nat :=
  { length := 12000, item := fun i => i }

/-- Witness for C5 with `rpModel`, split sizes 12000/1500/1500. -/
theorem deepdta_subsampling_witness :
    (∃ p, List.Perm p (List.range 12000) ∧
      (sampleSplitIndices rpModel 0 12000 1500 1500).1.1 = p.take train_subset_size) ∧
    (∃ p, List.Perm p (List.range 1500) ∧
      (sampleSplitIndices rpModel 0 12000 1500 1500).1.2.1 = p.take valid_subset_size) ∧
    (∃ p, List.Perm p (List.range 1500) ∧
      (sampleSplitIndices rpModel 0 12000 1500 1500).1.2.2 = p.take test_subset_size) ∧
    subsetToList natDataset (sampleSplitIndices rpModel 0 12000 1500 1500).1.1 =
      ((sampleSplitIndices rpModel 0 12000 1500 1500).1.1).map natDataset.item ∧
    subsetToList natDataset (sampleSplitIndices rpModel 0 12000 1500 1500).1.2.1 =
      ((sampleSplitIndices rpModel 0 12000 1500 1500).1.2.1).map natDataset.item ∧
    subsetToList natDataset (sampleSplitIndices rpModel 0 12000 1500 1500).1.2.2 =
      ((sampleSplitIndices rpModel 0 12000 1500 1500).1.2.2).map natDataset.item :=
  deepdta_subsampling rpModel rpModel_isRandPerm 0 12000 1500 1500
    natDataset natDataset natDataset

/-- Prefix of a permutation of `0..n-1`: pairwise distinct, in range,
length `min k n`, and positional access within the length stays below
`n`. -/
theorem take_perm_range_props (p : List Nat) (n k : Nat)
    (hp : List.Perm p (List.range n)) :
    (p.take k).Nodup ∧ (∀ x ∈ p.take k, x < n) ∧
      (p.take k).length = min k n ∧
      (∀ i, i < (p.take k).length → (p.take k).getD i 0 < n) := by
  have hnd : p.Nodup := hp.nodup_iff.mpr (List.nodup_range n)
  have hmem : ∀ x ∈ p, x < n := fun x hx => List.mem_range.mp (hp.subset hx)
  have hmemtake : ∀ x ∈ p.take k, x < n :=
    fun x hx => hmem x (List.mem_of_mem_take hx)
  refine ⟨hnd.sublist (List.take_sublist k p), hmemtake, ?_, ?_⟩
  · rw [List.length_take, hp.length_eq, List.length_range]
  · intro i hi
    have : (p.take k).getD i 0 ∈ p.take k := by
      rw [List.getD_eq_getElem?_getD, List.getElem?_eq_getElem hi, Option.getD_some]
      exact List.getElem_mem hi
    exact hmemtake _ this

/-- C9: for an adequate `randperm` model, each of the three sampled index
lists consists of pairwise-distinct integers, each below the corresponding
split length, with length `min(subset_size, split_size)`; hence every
positional access on the resulting `Subset` hits an in-range parent index. -/
theorem deepdta_indices_safety (randperm : Nat → Nat → List Nat × Nat)
    (h : IsRandPerm randperm) (s trainSize validSize testSize : Nat) :
    ((sampleSplitIndices randperm s trainSize validSize testSize).1.1.Nodup ∧
      (∀ x ∈ (sampleSplitIndices randperm s trainSize validSize testSize).1.1,
        x < trainSize) ∧
      (sampleSplitIndices randperm s trainSize validSize testSize).1.1.length =
        min train_subset_size trainSize ∧
      (∀ i, i < (sampleSplitIndices randperm s trainSize validSize testSize).1.1.length →
        (sampleSplitIndices randperm s trainSize validSize testSize).1.1.getD i 0 <
          trainSize)) ∧
    ((sampleSplitIndices randperm s trainSize validSize testSize).1.2.1.Nodup ∧
      (∀ x ∈ (sampleSplitIndices randperm s trainSize validSize testSize).1.2.1,
        x < validSize) ∧
      (sampleSplitIndices randperm s trainSize validSize testSize).1.2.1.length =
        min valid_subset_size validSize ∧
      (∀ i, i < (sampleSplitIndices randperm s trainSize validSize testSize).1.2.1.length →
        (sampleSplitIndices randperm s trainSize validSize testSize).1.2.1.getD i 0 <
          validSize)) ∧
    ((sampleSplitIndices randperm s trainSize validSize testSize).1.2.2.Nodup ∧
      (∀ x ∈ (sampleSplitIndices randperm s trainSize validSize testSize).1.2.2,
        x < testSize) ∧
      (sampleSplitIndices randperm s trainSize validSize testSize).1.2.2.length =
        min test_subset_size testSize ∧
      (∀ i, i < (sampleSplitIndices randperm s trainSize validSize testSize).1.2.2.length →
        (sampleSplitIndices randperm s trainSize validSize testSize).1.2.2.getD i 0 <
          testSize)) :=
  ⟨take_perm_range_props (randperm s trainSize).1 trainSize train_subset_size
      (h s trainSize),
   take_perm_range_props (randperm (randperm s trainSize).2 validSize).1 validSize
      valid_subset_size (h _ validSize),
   take_perm_range_props
      (randperm (randperm (randperm s trainSize).2 validSize).2 testSize).1 testSize
      test_subset_size (h _ testSize)⟩

/-- Witness for C9 with `rpModel`, split sizes 9000/800/2000. -/
theorem deepdta_indices_safety_witness :
    ((sampleSplitIndices rpModel 7 9000 800 2000).1.1.Nodup ∧
      (∀ x ∈ (sampleSplitIndices rpModel 7 9000 800 2000).1.1, x < 9000) ∧
      (sampleSplitIndices rpModel 7 9000 800 2000).1.1.length =
        min train_subset_size 9000 ∧
      (∀ i, i < (sampleSplitIndices rpModel 7 9000 800 2000).1.1.length →
        (sampleSplitIndices rpModel 7 9000 800 2000).1.1.getD i 0 < 9000)) ∧
    ((sampleSplitIndices rpModel 7 9000 800 2000).1.2.1.Nodup ∧
      (∀ x ∈ (sampleSplitIndices rpModel 7 9000 800 2000).1.2.1, x < 800) ∧
      (sampleSplitIndices rpModel 7 9000 800 2000).1.2.1.length =
        min valid_subset_size 800 ∧
      (∀ i, i < (sampleSplitIndices rpModel 7 9000 800 2000).1.2.1.length →
        (sampleSplitIndices rpModel 7 9000 800 2000).1.2.1.getD i 0 < 800)) ∧
    ((sampleSplitIndices rpModel 7 9000 800 2000).1.2.2.Nodup ∧
      (∀ x ∈ (sampleSplitIndices rpModel 7 9000 800 2000).1.2.2, x < 2000) ∧
      (sampleSplitIndices rpModel 7 9000 800 2000).1.2.2.length =
        min test_subset_size 2000 ∧
      (∀ i, i < (sampleSplitIndices rpModel 7 9000 800 2000).1.2.2.length →
        (sampleSplitIndices rpModel 7 9000 800 2000).1.2.2.getD i 0 < 2000)) :=
  deepdta_indices_safety rpModel rpModel_isRandPerm 7 9000 800 2000

/-! ## Seed placement and two-run determinism of the subsampling -/

/-- The pseudo-random-generator-relevant state of a DeepDTA notebook run:
the generator state and the subset index lists once drawn. -/
structure DeepdtaRunState where
  rng : Nat
  sampleIdx : Option (List Nat × List Nat × List Nat)
deriving DecidableEq, Repr

/-- The effect of one DeepDTA cell on the generator-relevant state: the
configuration cell ends with `set_seed(cfg.SOLVER.SEED)`, which resets the
generator state to a function of the configured seed alone; the dataset
cell draws the three `randperm` prefixes; no other cell touches the
generator state before the dataset cell. -/
def dcellEffect (randperm : Nat → Nat → List Nat × Nat) (setSeedState : Nat → Nat)
    (seed trainSize validSize testSize : Nat) (st : DeepdtaRunState) :
    DCell → DeepdtaRunState
  | .configSetup => { st with rng := setSeedState seed }
  | .datasetSubset =>
    let r := sampleSplitIndices randperm st.rng trainSize validSize testSize
    { rng := r.2, sampleIdx := some r.1 }
  | _ => st

/-- Run the DeepDTA notebook's cell sequence from an arbitrary initial
generator state `s0`. -/
def deepdtaRun (randperm : Nat → Nat → List Nat × Nat) (setSeedState : Nat → Nat)
    (seed trainSize validSize testSize s0 : Nat) : DeepdtaRunState :=
  deepdtaCells.foldl
    (dcellEffect randperm setSeedState seed trainSize validSize testSize)
    { rng := s0, sampleIdx := none }

/-- C10: because `set_seed(cfg.SOLVER.SEED)` runs (in the configuration
cell) before the `torch.randperm` draws (in the dataset cell), two DeepDTA
runs with the same configuration — any two initial generator states — yield
identical train/valid/test subset index lists, namely the ones drawn from
the seeded state; the DANN notebook instead places its `set_seed` cell
strictly after its dataset-construction cell. -/
theorem subsampling_two_run_determinism (randperm : Nat → Nat → List Nat × Nat)
    (setSeedState : Nat → Nat) (seed trainSize validSize testSize s0 s0' : Nat) :
    (deepdtaRun randperm setSeedState seed trainSize validSize testSize s0).sampleIdx =
      (deepdtaRun randperm setSeedState seed trainSize validSize testSize s0').sampleIdx ∧
    (deepdtaRun randperm setSeedState seed trainSize validSize testSize s0).sampleIdx =
      some (sampleSplitIndices randperm (setSeedState seed)
        trainSize validSize testSize).1 ∧
    dannCells.findIdx (fun c => decide (c = NCell.datasetSetup)) <
      dannCells.findIdx (fun c => decide (c = NCell.setSeedCell)) := by
  refine ⟨rfl, rfl, by decide⟩

/-! ## Reported metrics -/

/-- The four output metrics the DANN notebook's closing cell defines for its
`trainer.test()` call: domain accuracy, source accuracy, target accuracy
and loss. -/
def dann_test_metrics : List String :=
  ["test_domain_acc", "test_source_acc", "test_target_acc", "test_loss"]

/-- Modelled from the spec: the metric kind reported by the DeepDTA
notebook's `trainer.test` call.  The model code (`model.py`) is not under
`src/`; the notebook's closing text states the test loss is reported as
root mean square error. -/
def deepdta_test_metric_kind : String := "RMSE"

/-- C6: at the end of execution the DeepDTA (regression) notebook reports a
test RMSE metric and the DANN (classification) notebook reports exactly
`test_domain_acc`, `test_source_acc`, `test_target_acc` and `test_loss`,
each from the single `trainer.test` cell of the respective notebook. -/
theorem reported_test_metrics :
    deepdta_test_metric_kind = "RMSE" ∧
    dann_test_metrics =
      ["test_domain_acc", "test_source_acc", "test_target_acc", "test_loss"] ∧
    deepdtaCells.count DCell.testCall = 1 ∧
    dannCells.count NCell.testCall = 1 := by
  refine ⟨rfl, rfl, by decide, by decide⟩

end PyKale
